import Mathlib

/-!
Verification of the boiler emissions estimator (`app.py`, class
`EmissionsCalculator`).

The numeric domain is modelled with `ℚ`: the Python source performs plain
arithmetic (`*`, `/`, `+`) on numeric literals, and every claim is about the
exact algebraic content of those formulas, so rationals are the faithful
shallow embedding.  Python dicts with a fixed literal key set become total
functions from an enumerated key type; dicts used as iterated tables become
association lists; a dict lookup that can miss becomes an `Option` /
`Except` with a `keyError` outcome, mirroring Python's `KeyError`.
-/

/-- The eight pollutant / gas channels of an emission-factor record, in the
order the source dict literals list them. -/
inductive Pollutant where
  | oxygen
  | carbon_dioxide
  | carbon_monoxide
  | sulphur_dioxide
  | nitrogen_dioxide
  | nitrogen_oxide
  | nox
  | particulate_matter
deriving DecidableEq, Repr, Fintype

/-- The load-range categories, keys of `self.steam_ranges`. -/
inductive LoadRange where
  | low
  | medium
  | high
deriving DecidableEq, Repr, Fintype

/-- `self.steam_ranges` from `__init__`: insertion-ordered entries
`low ↦ (0, 10)`, `medium ↦ (11, 50)`, `high ↦ (51, 150)`. -/
def steam_ranges : List (LoadRange × ℚ × ℚ) :=
  [(LoadRange.low, (0, 10)), (LoadRange.medium, (11, 50)), (LoadRange.high, (51, 150))]

/-- The dict lookup `self.steam_ranges[load_range]`.  Every `LoadRange` is a
key of the dict literal, so the lookup is total. -/
def range_bounds : LoadRange → ℚ × ℚ
  | LoadRange.low => (0, 10)
  | LoadRange.medium => (11, 50)
  | LoadRange.high => (51, 150)

/-- `self.factors['coal']` from `__init__`: emission factors of coal per
load range and pollutant. -/
def coal_factors : LoadRange → Pollutant → ℚ
  | LoadRange.low => fun p =>
    match p with
    | Pollutant.oxygen => 2
    | Pollutant.carbon_dioxide => 0.5
    | Pollutant.carbon_monoxide => 90
    | Pollutant.sulphur_dioxide => 180
    | Pollutant.nitrogen_dioxide => 12
    | Pollutant.nitrogen_oxide => 20
    | Pollutant.nox => 130
    | Pollutant.particulate_matter => 50
  | LoadRange.medium => fun p =>
    match p with
    | Pollutant.oxygen => 0.4
    | Pollutant.carbon_dioxide => 0.1
    | Pollutant.carbon_monoxide => 17
    | Pollutant.sulphur_dioxide => 35
    | Pollutant.nitrogen_dioxide => 3
    | Pollutant.nitrogen_oxide => 5
    | Pollutant.nox => 25
    | Pollutant.particulate_matter => 11
  | LoadRange.high => fun p =>
    match p with
    | Pollutant.oxygen => 0.13
    | Pollutant.carbon_dioxide => 0.035
    | Pollutant.carbon_monoxide => 7
    | Pollutant.sulphur_dioxide => 13
    | Pollutant.nitrogen_dioxide => 20
    | Pollutant.nitrogen_oxide => 25
    | Pollutant.nox => 10
    | Pollutant.particulate_matter => 4

/-- `self.factors['biomass']` from `__init__`. -/
def biomass_factors : LoadRange → Pollutant → ℚ
  | LoadRange.low => fun p =>
    match p with
    | Pollutant.oxygen => 0.5
    | Pollutant.carbon_dioxide => 3
    | Pollutant.carbon_monoxide => 85
    | Pollutant.sulphur_dioxide => 180
    | Pollutant.nitrogen_dioxide => 12
    | Pollutant.nitrogen_oxide => 25
    | Pollutant.nox => 125
    | Pollutant.particulate_matter => 55
  | LoadRange.medium => fun p =>
    match p with
    | Pollutant.oxygen => 0.36
    | Pollutant.carbon_dioxide => 0.08
    | Pollutant.carbon_monoxide => 17
    | Pollutant.sulphur_dioxide => 35
    | Pollutant.nitrogen_dioxide => 2.4
    | Pollutant.nitrogen_oxide => 5
    | Pollutant.nox => 25
    | Pollutant.particulate_matter => 11
  | LoadRange.high => fun p =>
    match p with
    | Pollutant.oxygen => 0.13
    | Pollutant.carbon_dioxide => 0.026
    | Pollutant.carbon_monoxide => 5.6
    | Pollutant.sulphur_dioxide => 11
    | Pollutant.nitrogen_dioxide => 0.8
    | Pollutant.nitrogen_oxide => 1.47
    | Pollutant.nox => 8.35
    | Pollutant.particulate_matter => 3.65

/-- The outer lookup `self.factors[fuel_type]`: only the keys `'coal'` and
`'biomass'` exist; any other string misses (a `KeyError` in Python). -/
def factor_table (fuel_type : String) : Option (LoadRange → Pollutant → ℚ) :=
  if fuel_type = "coal" then some coal_factors
  else if fuel_type = "biomass" then some biomass_factors
  else none

/-- `self.peqs_limits` from `__init__`, in dict insertion order. -/
def peqs_limits : List (Pollutant × ℚ) :=
  [(Pollutant.carbon_monoxide, 800), (Pollutant.sulphur_dioxide, 1700),
   (Pollutant.nox, 1200), (Pollutant.particulate_matter, 500)]

/-- The distinguishable error outcomes of validation and calculation:
the three `ValueError`s of `validate_input` (told apart by their messages)
and a Python `KeyError` from a failed dict lookup. -/
inductive Err where
  | invalidLoad
  | invalidFuelType
  | invalidFuelMix
  | keyError
deriving DecidableEq, Repr

/-- The `fuel_mix` dict `{'coal': …, 'biomass': …}`.  As a two-field record
it is always truthy in Python; the absent case is `Option.none`. -/
structure FuelMix where
  coal : ℚ
  biomass : ℚ
deriving DecidableEq, Repr

/-- `get_load_range`: iterate `self.steam_ranges` in insertion order and
return the first range whose inclusive interval contains `steam_load`;
fall back to `'high'` when none does. -/
def get_load_range (steam_load : ℚ) : LoadRange :=
  match steam_ranges.find? (fun r => decide (r.2.1 ≤ steam_load ∧ steam_load ≤ r.2.2)) with
  | some r => r.1
  | none => LoadRange.high

/-- The `else` branch of `calculate_emissions`:
`self.factors[fuel_type][load_range].copy()` (the `.copy()` is the identity
on values in this embedding; a missing fuel key is a `KeyError`). -/
def factor_row (fuel_type : String) (load_range : LoadRange) :
    Except Err (Pollutant → ℚ) :=
  match factor_table fuel_type with
  | some tbl => Except.ok (tbl load_range)
  | none => Except.error Err.keyError

/-- `calculate_emissions(steam_load, fuel_type, fuel_mix=None)`.
The guard `if fuel_type == 'mixed' and fuel_mix:` takes the blend branch
exactly when `fuel_type` is `'mixed'` and `fuel_mix` is a present (truthy)
dict; otherwise the direct table lookup runs.  Afterwards every channel is
scaled in place by `load_factor * steam_load` with
`load_factor = steam_load / range_max`. -/
def calculate_emissions (steam_load : ℚ) (fuel_type : String)
    (fuel_mix : Option FuelMix) :
    Except Err ((Pollutant → ℚ) × LoadRange) :=
  let load_range := get_load_range steam_load
  let base : Except Err (Pollutant → ℚ) :=
    match fuel_mix with
    | some mix =>
        if fuel_type = "mixed" then
          let coal_emissions := fun p => coal_factors load_range p * (mix.coal / 100)
          let biomass_emissions := fun p => biomass_factors load_range p * (mix.biomass / 100)
          Except.ok (fun p => coal_emissions p + biomass_emissions p)
        else factor_row fuel_type load_range
    | none => factor_row fuel_type load_range
  match base with
  | Except.error e => Except.error e
  | Except.ok emissions =>
      let load_factor := steam_load / (range_bounds load_range).2
      Except.ok (fun p => emissions p * (load_factor * steam_load), load_range)

/-- `validate_input(steam_load, fuel_type, fuel_mix=None)`.  On success the
returned `Bool` records whether the `st.warning` advisory for
`steam_load > 300` was emitted.  The mix check runs only under the guard
`if fuel_type == 'mixed' and fuel_mix:`, so a missing mix skips it. -/
def validate_input (steam_load : ℚ) (fuel_type : String)
    (fuel_mix : Option FuelMix) : Except Err Bool :=
  if steam_load ≤ 0 then Except.error Err.invalidLoad
  else
    let warned := decide (300 < steam_load)
    if fuel_type ∉ (["coal", "biomass", "mixed"] : List String) then
      Except.error Err.invalidFuelType
    else
      match fuel_mix with
      | some mix =>
          if fuel_type = "mixed" then
            if mix.coal + mix.biomass ≠ 100 then Except.error Err.invalidFuelMix
            else Except.ok warned
          else Except.ok warned
      | none => Except.ok warned

/-- The call sequence of the app: validate, then calculate (§7: hard errors
abort the calculation and leave no result). -/
def run_calculation (steam_load : ℚ) (fuel_type : String)
    (fuel_mix : Option FuelMix) :
    Except Err ((Pollutant → ℚ) × LoadRange) :=
  match validate_input steam_load fuel_type fuel_mix with
  | Except.error e => Except.error e
  | Except.ok _ => calculate_emissions steam_load fuel_type fuel_mix

/-- Project a pollutant channel out of a calculation outcome. -/
def emission_of (r : Except Err ((Pollutant → ℚ) × LoadRange))
    (p : Pollutant) : Option ℚ :=
  match r with
  | Except.ok x => some (x.1 p)
  | Except.error _ => none

/-- Membership of `steam_load` in the inclusive interval of a range. -/
def in_interval (r : LoadRange) (steam_load : ℚ) : Prop :=
  (range_bounds r).1 ≤ steam_load ∧ steam_load ≤ (range_bounds r).2

instance (r : LoadRange) (L : ℚ) : Decidable (in_interval r L) := by
  unfold in_interval
  infer_instance

/-- Unfolding of `get_load_range` to the explicit decision chain that the
insertion-ordered dict iteration performs. -/
theorem get_load_range_eq (L : ℚ) :
    get_load_range L =
      if 0 ≤ L ∧ L ≤ 10 then LoadRange.low
      else if 11 ≤ L ∧ L ≤ 50 then LoadRange.medium
      else if 51 ≤ L ∧ L ≤ 150 then LoadRange.high
      else LoadRange.high := by
  by_cases h1 : 0 ≤ L ∧ L ≤ 10 <;>
    by_cases h2 : 11 ≤ L ∧ L ≤ 50 <;>
      by_cases h3 : 51 ≤ L ∧ L ≤ 150 <;>
        simp [get_load_range, steam_ranges, List.find?, h1, h2, h3]

/-- C3: for every steam_load in [0,10] `get_load_range` returns `low`; in
[11,50] it returns `medium`; in [51,150] it returns `high`; and for every
steam_load above 150 it returns `high` (via the fallback). -/
theorem get_load_range_bands (L : ℚ) :
    ((0 ≤ L ∧ L ≤ 10) → get_load_range L = LoadRange.low) ∧
    ((11 ≤ L ∧ L ≤ 50) → get_load_range L = LoadRange.medium) ∧
    ((51 ≤ L ∧ L ≤ 150) → get_load_range L = LoadRange.high) ∧
    (150 < L → get_load_range L = LoadRange.high) := by
  rw [get_load_range_eq]
  refine ⟨fun h => ?_, fun h => ?_, fun h => ?_, fun h => ?_⟩ <;>
    split_ifs with h1 h2 h3 <;>
      first
        | rfl
        | (exact absurd h ‹¬_›)
        | (exfalso; rcases h with ⟨ha, hb⟩ <;> rcases h1 with ⟨hc, hd⟩ <;> linarith)
        | (exfalso; rcases h with ⟨ha, hb⟩ <;> rcases h2 with ⟨hc, hd⟩ <;> linarith)
        | (exfalso; rcases h1 with ⟨hc, hd⟩ <;> linarith)
        | (exfalso; rcases h2 with ⟨hc, hd⟩ <;> linarith)
        | (exfalso; rcases h3 with ⟨hc, hd⟩ <;> linarith)

/-- Witness for C3 at loads 5, 30, 100 and 200. -/
theorem get_load_range_bands_witness :
    get_load_range 5 = LoadRange.low ∧
    get_load_range 30 = LoadRange.medium ∧
    get_load_range 100 = LoadRange.high ∧
    get_load_range 200 = LoadRange.high :=
  ⟨(get_load_range_bands 5).1 (by norm_num),
   (get_load_range_bands 30).2.1 (by norm_num),
   (get_load_range_bands 100).2.2.1 (by norm_num),
   (get_load_range_bands 200).2.2.2 (by norm_num)⟩

/-- Counterexample to C4: steam_load = 10.5 lies in [0,150], yet
`get_load_range` takes the `high` fallback and the returned range's
interval [51,150] does not contain 10.5 — the defined intervals are not
contiguous over [0,150] for non-integer loads. -/
theorem get_load_range_gap_cex :
    ((0 : ℚ) ≤ 10.5 ∧ (10.5 : ℚ) ≤ 150) ∧
    get_load_range 10.5 = LoadRange.high ∧
    ¬ in_interval (get_load_range 10.5) 10.5 := by
  refine ⟨by norm_num, ?_, ?_⟩ <;>
    · rw [get_load_range_eq]
      norm_num [in_interval, range_bounds]

/-- C4 amended: for every steam_load that lies in one of the three defined
intervals, `get_load_range` returns a range whose interval contains it, and
the intervals are pairwise disjoint; but the intervals are not contiguous
over [0,150]: for steam_load in the gaps (10,11) or (50,51) — as well as
for steam_load > 150 — the `high` fallback is taken even though no defined
interval contains the load. -/
theorem get_load_range_containment (L : ℚ) :
    ((in_interval LoadRange.low L ∨ in_interval LoadRange.medium L ∨
        in_interval LoadRange.high L) →
      in_interval (get_load_range L) L) ∧
    ((10 < L ∧ L < 11) ∨ (50 < L ∧ L < 51) ∨ 150 < L →
      get_load_range L = LoadRange.high ∧ ¬ in_interval (get_load_range L) L) ∧
    (∀ r r' : LoadRange, in_interval r L → in_interval r' L → r = r') := by
  refine ⟨fun h => ?_, fun h => ?_, fun r r' hr hr' => ?_⟩
  · rw [get_load_range_eq]
    rcases h with h | h | h <;>
      rcases h with ⟨ha, hb⟩ <;>
        simp only [range_bounds] at ha hb <;>
          split_ifs with h1 h2 h3 <;>
            simp only [in_interval, range_bounds] <;>
              first
                | (exact ⟨ha, hb⟩)
                | (exact ⟨by linarith, by linarith⟩)
                | (exfalso; push_neg at h1 h2 h3; linarith [h1 (by linarith), h2 (by linarith), h3 (by linarith)])
                | (exfalso; push_neg at h1 h2; linarith [h1 (by linarith), h2 (by linarith)])
                | (exfalso; push_neg at h1; linarith [h1 (by linarith)])
  · rw [get_load_range_eq]
    have hchain : ¬ (0 ≤ L ∧ L ≤ 10) ∧ ¬ (11 ≤ L ∧ L ≤ 50) ∧ ¬ (51 ≤ L ∧ L ≤ 150) := by
      rcases h with ⟨ha, hb⟩ | ⟨ha, hb⟩ | ha <;>
        refine ⟨fun hc => ?_, fun hc => ?_, fun hc => ?_⟩ <;> rcases hc with ⟨hc, hd⟩ <;> linarith
    rw [if_neg hchain.1, if_neg hchain.2.1, if_neg hchain.2.2]
    refine ⟨rfl, fun hc => ?_⟩
    simp only [in_interval, range_bounds] at hc
    exact hchain.2.2 hc
  · rcases hr with ⟨ha, hb⟩
    rcases hr' with ⟨hc, hd⟩
    cases r <;> cases r' <;>
      simp only [range_bounds] at ha hb hc hd <;>
        first
          | rfl
          | (exfalso; linarith)

/-- Witness for C4 amended at loads 30 (containment), 10.5 (gap fallback)
and 200 (above every interval). -/
theorem get_load_range_containment_witness :
    in_interval (get_load_range 30) 30 ∧
    (get_load_range 10.5 = LoadRange.high ∧ ¬ in_interval (get_load_range 10.5) 10.5) ∧
    (get_load_range 200 = LoadRange.high ∧ ¬ in_interval (get_load_range 200) 200) :=
  ⟨(get_load_range_containment 30).1 (Or.inr (Or.inl (by norm_num [in_interval, range_bounds]))),
   (get_load_range_containment 10.5).2.1 (Or.inl (by norm_num)),
   (get_load_range_containment 200).2.1 (Or.inr (Or.inr (by norm_num)))⟩

/-- Compliance status: the `"✓ Compliant"` / `"❌ Exceeded"` strings of the
source, as an enumeration. -/
inductive Status where
  | Compliant
  | Exceeded
deriving DecidableEq, Repr

/-- One row appended by `compare_with_peqs`: the parameter, the calculated
value, the PEQS limit, the percentage of the limit and the status. -/
structure ComplianceRow where
  parameter : Pollutant
  calculated : ℚ
  limit : ℚ
  percentage : ℚ
  status : Status
deriving DecidableEq, Repr

/-- `compare_with_peqs(emissions)`: iterate `self.peqs_limits` in insertion
order; per parameter read `emissions[parameter]`, set the status by the
inclusive comparison `calculated <= limit` and the percentage by
`(calculated / limit) * 100`. -/
def compare_with_peqs (emissions : Pollutant → ℚ) : List ComplianceRow :=
  peqs_limits.map (fun pl =>
    { parameter := pl.1
      calculated := emissions pl.1
      limit := pl.2
      percentage := emissions pl.1 / pl.2 * 100
      status := if emissions pl.1 ≤ pl.2 then Status.Compliant else Status.Exceeded })

/-- C5: `compare_with_peqs` returns exactly the four rows for
carbon_monoxide, sulphur_dioxide, nox and particulate_matter in that fixed
order, each with percentage = calculated / limit × 100 and status
`Compliant` exactly when calculated ≤ limit (so a value at the limit is
`Compliant`); no row concerns oxygen or carbon_dioxide. -/
theorem compare_with_peqs_rows (emissions : Pollutant → ℚ) :
    compare_with_peqs emissions =
      [{ parameter := Pollutant.carbon_monoxide
         calculated := emissions Pollutant.carbon_monoxide
         limit := 800
         percentage := emissions Pollutant.carbon_monoxide / 800 * 100
         status := if emissions Pollutant.carbon_monoxide ≤ 800 then Status.Compliant
           else Status.Exceeded },
       { parameter := Pollutant.sulphur_dioxide
         calculated := emissions Pollutant.sulphur_dioxide
         limit := 1700
         percentage := emissions Pollutant.sulphur_dioxide / 1700 * 100
         status := if emissions Pollutant.sulphur_dioxide ≤ 1700 then Status.Compliant
           else Status.Exceeded },
       { parameter := Pollutant.nox
         calculated := emissions Pollutant.nox
         limit := 1200
         percentage := emissions Pollutant.nox / 1200 * 100
         status := if emissions Pollutant.nox ≤ 1200 then Status.Compliant
           else Status.Exceeded },
       { parameter := Pollutant.particulate_matter
         calculated := emissions Pollutant.particulate_matter
         limit := 500
         percentage := emissions Pollutant.particulate_matter / 500 * 100
         status := if emissions Pollutant.particulate_matter ≤ 500 then Status.Compliant
           else Status.Exceeded }] ∧
    ∀ row ∈ compare_with_peqs emissions,
      (row.status = Status.Compliant ↔ row.calculated ≤ row.limit) ∧
      row.percentage = row.calculated / row.limit * 100 ∧
      row.parameter ≠ Pollutant.oxygen ∧
      row.parameter ≠ Pollutant.carbon_dioxide := by
  refine ⟨rfl, fun row hrow => ?_⟩
  simp only [compare_with_peqs, peqs_limits, List.map, List.mem_cons,
    List.not_mem_nil, or_false] at hrow
  rcases hrow with h | h | h | h <;>
    subst h <;>
      refine ⟨?_, rfl, by simp, by simp⟩ <;>
        · split_ifs with hle <;> simp [hle]

/-- Witness for C5, at the spec's example values: carbon_monoxide
calculated 900 against limit 800 is Exceeded at 112.5 %, and calculated 500
is Compliant at 62.5 %. -/
theorem compare_with_peqs_rows_witness :
    ((compare_with_peqs (fun _ => 900)).map ComplianceRow.status).head? = some Status.Exceeded ∧
    ((compare_with_peqs (fun _ => 900)).map ComplianceRow.percentage).head? = some 112.5 ∧
    ((compare_with_peqs (fun _ => 500)).map ComplianceRow.status).head? = some Status.Compliant ∧
    ((compare_with_peqs (fun _ => 500)).map ComplianceRow.percentage).head? = some 62.5 := by
  rw [(compare_with_peqs_rows (fun _ => 900)).1, (compare_with_peqs_rows (fun _ => 500)).1]
  norm_num

/-- Evaluation of `get_load_range` at the concrete load 10. -/
theorem get_load_range_ten : get_load_range 10 = LoadRange.low := by
  rw [get_load_range_eq]
  norm_num

/-- C1: for every valid steam_load and pure fuel type (coal or biomass,
with any fuel_mix argument since the blend guard ignores it for pure
fuels), `calculate_emissions` resolves the load range, looks the base
record up in the factor table, and returns per pollutant
base[p] × (steam_load / range_max) × steam_load, where range_max is the
upper bound of the resolved range; in particular at steam_load 10 on coal
the carbon_monoxide result is 900. -/
theorem calculate_emissions_pure_scaling (L : ℚ) (hL : 0 < L) (f : String)
    (hf : f = "coal" ∨ f = "biomass") (m : Option FuelMix) :
    (∃ tbl final, factor_table f = some tbl ∧
      calculate_emissions L f m = Except.ok (final, get_load_range L) ∧
      ∀ p, final p =
        tbl (get_load_range L) p * (L / (range_bounds (get_load_range L)).2) * L) ∧
    emission_of (calculate_emissions 10 "coal" none) Pollutant.carbon_monoxide
      = some 900 := by
  constructor
  · rcases hf with hf | hf <;> subst hf
    · refine ⟨coal_factors,
        fun p => coal_factors (get_load_range L) p *
          (L / (range_bounds (get_load_range L)).2 * L),
        by simp [factor_table], ?_, fun p => by ring⟩
      cases m <;> simp [calculate_emissions, factor_row, factor_table]
    · refine ⟨biomass_factors,
        fun p => biomass_factors (get_load_range L) p *
          (L / (range_bounds (get_load_range L)).2 * L),
        by simp [factor_table], ?_, fun p => by ring⟩
      cases m <;> simp [calculate_emissions, factor_row, factor_table]
  · simp [emission_of, calculate_emissions, factor_row, factor_table,
      get_load_range_ten, coal_factors, range_bounds]
    norm_num

/-- Witness for C1 at steam_load 10 on coal. -/
theorem calculate_emissions_pure_scaling_witness :
    emission_of (calculate_emissions 10 "coal" none) Pollutant.carbon_monoxide
      = some 900 :=
  (calculate_emissions_pure_scaling 10 (by norm_num) "coal" (Or.inl rfl) none).2

/-- C2: for every valid steam_load and present valid fuel mix,
`calculate_emissions` on mixed fuel blends the two factor records linearly
per pollutant — base[p] = coal[p] × (coal_pct/100) + biomass[p] ×
(biomass_pct/100) — before the load scaling; in particular a 50/50 mix at
steam_load 10 yields oxygen 12.5. -/
theorem calculate_emissions_mixed_blend (L : ℚ) (hL : 0 < L) (mix : FuelMix)
    (hsum : mix.coal + mix.biomass = 100) (hc : 0 ≤ mix.coal)
    (hb : 0 ≤ mix.biomass) :
    (∃ final,
      calculate_emissions L "mixed" (some mix) = Except.ok (final, get_load_range L) ∧
      ∀ p, final p =
        (coal_factors (get_load_range L) p * (mix.coal / 100) +
          biomass_factors (get_load_range L) p * (mix.biomass / 100)) *
          (L / (range_bounds (get_load_range L)).2) * L) ∧
    emission_of (calculate_emissions 10 "mixed" (some ⟨50, 50⟩)) Pollutant.oxygen
      = some 12.5 := by
  constructor
  · refine ⟨fun p =>
        (coal_factors (get_load_range L) p * (mix.coal / 100) +
          biomass_factors (get_load_range L) p * (mix.biomass / 100)) *
          (L / (range_bounds (get_load_range L)).2 * L),
      ?_, fun p => by ring⟩
    simp [calculate_emissions]
  · simp [emission_of, calculate_emissions, get_load_range_ten, coal_factors,
      biomass_factors, range_bounds]
    norm_num

/-- Witness for C2 at the 50/50 mix and steam_load 10. -/
theorem calculate_emissions_mixed_blend_witness :
    emission_of (calculate_emissions 10 "mixed" (some ⟨50, 50⟩)) Pollutant.oxygen
      = some 12.5 :=
  (calculate_emissions_mixed_blend 10 (by norm_num) ⟨50, 50⟩ (by norm_num)
    (by norm_num) (by norm_num)).2

/-- C10: for every valid steam_load and valid fuel mix, the mixed result is
the pointwise convex combination of the two pure results at the same load,
and all three calls resolve the same load range. -/
theorem mixed_convex_combination (L : ℚ) (hL : 0 < L) (mix : FuelMix)
    (hsum : mix.coal + mix.biomass = 100) (hc : 0 ≤ mix.coal)
    (hb : 0 ≤ mix.biomass) :
    ∃ fc fb fm,
      calculate_emissions L "coal" none = Except.ok (fc, get_load_range L) ∧
      calculate_emissions L "biomass" none = Except.ok (fb, get_load_range L) ∧
      calculate_emissions L "mixed" (some mix) = Except.ok (fm, get_load_range L) ∧
      ∀ p, fm p = mix.coal / 100 * fc p + mix.biomass / 100 * fb p := by
  refine ⟨fun p => coal_factors (get_load_range L) p *
        (L / (range_bounds (get_load_range L)).2 * L),
      fun p => biomass_factors (get_load_range L) p *
        (L / (range_bounds (get_load_range L)).2 * L),
      fun p =>
        (coal_factors (get_load_range L) p * (mix.coal / 100) +
          biomass_factors (get_load_range L) p * (mix.biomass / 100)) *
          (L / (range_bounds (get_load_range L)).2 * L),
      ?_, ?_, ?_, fun p => by ring⟩ <;>
    simp [calculate_emissions, factor_row, factor_table]

/-- Witness for C10: at steam_load 10 with a 50/50 mix, the nox channel of
the mixed result, 1275, is the mean of the pure results 1300 and 1250. -/
theorem mixed_convex_combination_witness :
    emission_of (calculate_emissions 10 "coal" none) Pollutant.nox = some 1300 ∧
    emission_of (calculate_emissions 10 "biomass" none) Pollutant.nox = some 1250 ∧
    emission_of (calculate_emissions 10 "mixed" (some ⟨50, 50⟩)) Pollutant.nox
      = some 1275 := by
  obtain ⟨fc, fb, fm, hcoal, hbio, hmix, hp⟩ :=
    mixed_convex_combination 10 (by norm_num) ⟨50, 50⟩ (by norm_num) (by norm_num)
      (by norm_num)
  have h1 : emission_of (calculate_emissions 10 "coal" none) Pollutant.nox
      = some (fc Pollutant.nox) := by rw [hcoal]; rfl
  have h2 : emission_of (calculate_emissions 10 "biomass" none) Pollutant.nox
      = some (fb Pollutant.nox) := by rw [hbio]; rfl
  have h3 : emission_of (calculate_emissions 10 "mixed" (some ⟨50, 50⟩)) Pollutant.nox
      = some (fm Pollutant.nox) := by rw [hmix]; rfl
  have e1 : emission_of (calculate_emissions 10 "coal" none) Pollutant.nox
      = some 1300 := by
    simp [emission_of, calculate_emissions, factor_row, factor_table,
      get_load_range_ten, coal_factors, range_bounds]
    norm_num
  have e2 : emission_of (calculate_emissions 10 "biomass" none) Pollutant.nox
      = some 1250 := by
    simp [emission_of, calculate_emissions, factor_row, factor_table,
      get_load_range_ten, biomass_factors, range_bounds]
    norm_num
  have hfc : fc Pollutant.nox = 1300 := by
    have := h1.symm.trans e1
    exact Option.some.inj this
  have hfb : fb Pollutant.nox = 1250 := by
    have := h2.symm.trans e2
    exact Option.some.inj this
  refine ⟨e1, e2, ?_⟩
  rw [h3, hp Pollutant.nox, hfc, hfb]
  norm_num

/-- A fuel selection the spec calls valid: a pure fuel, or mixed with a
present mix summing to 100. -/
def ValidFuelSel (f : String) (m : Option FuelMix) : Prop :=
  f = "coal" ∨ f = "biomass" ∨
    (f = "mixed" ∧ ∃ mix, m = some mix ∧ mix.coal + mix.biomass = 100)

/-- Counterexample to C6: a mixed call with a missing fuel_mix passes
validation (the guard `fuel_type == 'mixed' and fuel_mix` is false), and
the calculation then fails with a KeyError on `self.factors['mixed']`, not
with InvalidFuelMix. -/
theorem mixed_missing_mix_cex :
    run_calculation 10 "mixed" none ≠ Except.error Err.invalidFuelMix ∧
    run_calculation 10 "mixed" none = Except.error Err.keyError ∧
    validate_input 10 "mixed" none = Except.ok false := by
  have hn : ¬ (10 : ℚ) ≤ 0 := by norm_num
  have hw : ¬ (300 : ℚ) < 10 := by norm_num
  have hval : validate_input 10 "mixed" none = Except.ok false := by
    simp [validate_input, hn, hw]
  have hrun : run_calculation 10 "mixed" none = Except.error Err.keyError := by
    unfold run_calculation
    rw [hval]
    simp [calculate_emissions, factor_row, factor_table]
  exact ⟨by rw [hrun]; simp, hrun, hval⟩

/-- C6 amended: for every valid steam_load, a mixed call whose present mix
does not sum to 100 is rejected by validation with InvalidFuelMix (so the
mix {coal: 60, biomass: 30} is rejected), while a mixed call with a missing
fuel_mix passes validation and instead fails inside the calculation with a
KeyError; in every case no emissions result is produced. -/
theorem mixed_fuel_rejection (L : ℚ) (hL : 0 < L) :
    (∀ mix : FuelMix, mix.coal + mix.biomass ≠ 100 →
      run_calculation L "mixed" (some mix) = Except.error Err.invalidFuelMix) ∧
    run_calculation L "mixed" none = Except.error Err.keyError ∧
    run_calculation L "mixed" (some ⟨60, 30⟩) = Except.error Err.invalidFuelMix := by
  have h0 : ¬ L ≤ 0 := by linarith
  refine ⟨fun mix hne => ?_, ?_, ?_⟩
  · simp [run_calculation, validate_input, h0, hne]
  · simp [run_calculation, validate_input, h0, calculate_emissions,
      factor_row, factor_table]
  · norm_num [run_calculation, validate_input, h0]

/-- Witness for C6 amended at steam_load 10. -/
theorem mixed_fuel_rejection_witness :
    run_calculation 10 "mixed" (some ⟨60, 30⟩) = Except.error Err.invalidFuelMix ∧
    run_calculation 10 "mixed" none = Except.error Err.keyError :=
  ⟨(mixed_fuel_rejection 10 (by norm_num)).2.2,
   (mixed_fuel_rejection 10 (by norm_num)).2.1⟩

/-- C7: validation rejects every steam_load ≤ 0 with InvalidLoad as its
first check, before any calculation; and for every steam_load above 300
with an otherwise valid fuel selection, validation succeeds with only the
advisory warning flag set, and the calculation produces a result. -/
theorem validate_load_behaviour (L : ℚ) (f : String) (m : Option FuelMix) :
    (L ≤ 0 → validate_input L f m = Except.error Err.invalidLoad) ∧
    (300 < L → ValidFuelSel f m →
      validate_input L f m = Except.ok true ∧
      ∃ r, run_calculation L f m = Except.ok r) := by
  constructor
  · intro hle
    simp [validate_input, hle]
  · intro h300 hvf
    have h0 : ¬ L ≤ 0 := by linarith
    have hval : validate_input L f m = Except.ok true := by
      rcases hvf with hf | hf | ⟨hf, mix, hm, hsum⟩ <;> subst hf
      · cases m <;> simp [validate_input, h0, h300]
      · cases m <;> simp [validate_input, h0, h300]
      · subst hm
        simp [validate_input, h0, h300, hsum]
    refine ⟨hval, ?_⟩
    rcases hvf with hf | hf | ⟨hf, mix, hm, hsum⟩ <;> subst hf
    · refine ⟨(fun p => coal_factors (get_load_range L) p *
          (L / (range_bounds (get_load_range L)).2 * L), get_load_range L), ?_⟩
      rw [run_calculation, hval]
      cases m <;> simp [calculate_emissions, factor_row, factor_table]
    · refine ⟨(fun p => biomass_factors (get_load_range L) p *
          (L / (range_bounds (get_load_range L)).2 * L), get_load_range L), ?_⟩
      rw [run_calculation, hval]
      cases m <;> simp [calculate_emissions, factor_row, factor_table]
    · subst hm
      refine ⟨(fun p =>
          (coal_factors (get_load_range L) p * (mix.coal / 100) +
            biomass_factors (get_load_range L) p * (mix.biomass / 100)) *
            (L / (range_bounds (get_load_range L)).2 * L), get_load_range L), ?_⟩
      rw [run_calculation, hval]
      simp [calculate_emissions]

/-- Witness for C7 at steam_loads 0 and 301 on coal. -/
theorem validate_load_behaviour_witness :
    validate_input 0 "coal" none = Except.error Err.invalidLoad ∧
    validate_input 301 "coal" none = Except.ok true :=
  ⟨(validate_load_behaviour 0 "coal" none).1 (by norm_num),
   ((validate_load_behaviour 301 "coal" none).2 (by norm_num) (Or.inl rfl)).1⟩

/-- C8: with a positive steam_load, validation rejects every fuel_type
outside {coal, biomass, mixed} with InvalidFuelType, and for every
fuel_type inside that set it never fails on fuel-type grounds. -/
theorem validate_fuel_type_check (L : ℚ) (hL : 0 < L) (f : String)
    (m : Option FuelMix) :
    (f ∉ (["coal", "biomass", "mixed"] : List String) →
      validate_input L f m = Except.error Err.invalidFuelType) ∧
    (f ∈ (["coal", "biomass", "mixed"] : List String) →
      validate_input L f m ≠ Except.error Err.invalidFuelType) := by
  have h0 : ¬ L ≤ 0 := by linarith
  constructor
  · intro hf
    simp [validate_input, h0, hf]
  · intro hf
    have hf' : f = "coal" ∨ f = "biomass" ∨ f = "mixed" := by simpa using hf
    rcases hf' with h | h | h <;> subst h <;> cases m <;>
      · simp only [validate_input, if_neg h0]
        split_ifs <;> simp_all

/-- Witness for C8 at steam_load 10 with fuel types "gas" and "coal". -/
theorem validate_fuel_type_check_witness :
    validate_input 10 "gas" none = Except.error Err.invalidFuelType ∧
    validate_input 10 "coal" none ≠ Except.error Err.invalidFuelType :=
  ⟨(validate_fuel_type_check 10 (by norm_num) "gas" none).1 (by simp),
   (validate_fuel_type_check 10 (by norm_num) "coal" none).2 (by simp)⟩

/-- The eight dict keys of a factor record, in insertion order. -/
def pollutant_keys : List Pollutant :=
  [Pollutant.oxygen, Pollutant.carbon_dioxide, Pollutant.carbon_monoxide,
   Pollutant.sulphur_dioxide, Pollutant.nitrogen_dioxide, Pollutant.nitrogen_oxide,
   Pollutant.nox, Pollutant.particulate_matter]

/-- Python dict lookup `d[k]` on an association list: the value when the
key is present, `none` (a `KeyError` at the call site) when it is not. -/
def assoc_find {α β : Type} [DecidableEq α] (l : List (α × β)) (k : α) : Option β :=
  match l.find? (fun kv => decide (kv.1 = k)) with
  | some kv => some kv.2
  | none => none

/-- The instance state of `EmissionsCalculator`, with every configuration
dict of `__init__` as first-order data. -/
structure CalculatorState where
  steam_ranges : List (LoadRange × ℚ × ℚ)
  factors : List (String × List (LoadRange × List (Pollutant × ℚ)))
  peqs_limits : List (Pollutant × ℚ)
deriving DecidableEq, Repr

/-- The three load-range rows of one fuel's factor dict. -/
def factor_entries (tbl : LoadRange → Pollutant → ℚ) :
    List (LoadRange × List (Pollutant × ℚ)) :=
  [(LoadRange.low, pollutant_keys.map (fun p => (p, tbl LoadRange.low p))),
   (LoadRange.medium, pollutant_keys.map (fun p => (p, tbl LoadRange.medium p))),
   (LoadRange.high, pollutant_keys.map (fun p => (p, tbl LoadRange.high p)))]

/-- The state `__init__` builds: the steam ranges, the two-fuel factor
table and the PEQS limits. -/
def init_state : CalculatorState :=
  { steam_ranges := steam_ranges
    factors := [("coal", factor_entries coal_factors),
                ("biomass", factor_entries biomass_factors)]
    peqs_limits := peqs_limits }

/-- `get_load_range` against an explicit instance state. -/
def get_load_range_of (s : CalculatorState) (L : ℚ) : LoadRange :=
  match s.steam_ranges.find? (fun r => decide (r.2.1 ≤ L ∧ L ≤ r.2.2)) with
  | some r => r.1
  | none => LoadRange.high

/-- The double dict lookup `self.factors[fuel][load_range]` against an
explicit instance state. -/
def lookup_row (s : CalculatorState) (load_range : LoadRange) (fuel : String) :
    Except Err (List (Pollutant × ℚ)) :=
  match assoc_find s.factors fuel with
  | some tbl =>
      match assoc_find tbl load_range with
      | some row => Except.ok row
      | none => Except.error Err.keyError
  | none => Except.error Err.keyError

/-- `calculate_emissions` against an explicit instance state, with every
dict access going through the state's association lists.  The method reads
`self.steam_ranges` and `self.factors` and writes only into the local dict
`emissions` — a `.copy()` of the looked-up row, or a dict built fresh for
the blend — so it never assigns into the state. -/
def calculate_emissions_core (s : CalculatorState) (L : ℚ) (f : String)
    (m : Option FuelMix) :
    Except Err (List (Pollutant × ℚ) × LoadRange) :=
  let load_range := get_load_range_of s L
  let base : Except Err (List (Pollutant × ℚ)) :=
    match m with
    | some mix =>
        if f = "mixed" then
          match lookup_row s load_range "coal", lookup_row s load_range "biomass" with
          | Except.ok coal_row, Except.ok biomass_row =>
              let coal_emissions :=
                coal_row.map (fun kv => (kv.1, kv.2 * (mix.coal / 100)))
              let biomass_emissions :=
                biomass_row.map (fun kv => (kv.1, kv.2 * (mix.biomass / 100)))
              match coal_emissions.mapM (fun kv =>
                  (assoc_find biomass_emissions kv.1).map
                    (fun v => (kv.1, kv.2 + v))) with
              | some emissions => Except.ok emissions
              | none => Except.error Err.keyError
          | Except.error e, _ => Except.error e
          | _, Except.error e => Except.error e
        else lookup_row s load_range f
    | none => lookup_row s load_range f
  match base with
  | Except.error e => Except.error e
  | Except.ok emissions =>
      match s.steam_ranges.find? (fun r => decide (r.1 = load_range)) with
      | some r =>
          Except.ok (emissions.map (fun kv => (kv.1, kv.2 * (L / r.2.2 * L))), load_range)
      | none => Except.error Err.keyError

/-- The state-threaded invocation of `calculate_emissions`: the result
together with the instance state after the call. -/
def calculate_emissions_st (s : CalculatorState) (L : ℚ) (f : String)
    (m : Option FuelMix) :
    Except Err (List (Pollutant × ℚ) × LoadRange) × CalculatorState :=
  (calculate_emissions_core s L f m, s)

/-- `compare_with_peqs` against an explicit instance state: iterate
`self.peqs_limits`, reading `emissions[parameter]` per row (a missing
parameter would be a `KeyError`). -/
def compare_with_peqs_core (s : CalculatorState)
    (emissions : List (Pollutant × ℚ)) : Except Err (List ComplianceRow) :=
  match s.peqs_limits.mapM (fun pl =>
      (assoc_find emissions pl.1).map (fun calculated =>
        { parameter := pl.1
          calculated := calculated
          limit := pl.2
          percentage := calculated / pl.2 * 100
          status := if calculated ≤ pl.2 then Status.Compliant
            else Status.Exceeded : ComplianceRow })) with
  | some rows => Except.ok rows
  | none => Except.error Err.keyError

/-- The state-threaded invocation of `compare_with_peqs`. -/
def compare_with_peqs_st (s : CalculatorState)
    (emissions : List (Pollutant × ℚ)) :
    Except Err (List ComplianceRow) × CalculatorState :=
  (compare_with_peqs_core s emissions, s)

/-- C9: both operations leave the instance's configuration tables
unchanged, and a repeated call with identical inputs — run against the
state the first call left behind — returns the identical result. -/
theorem config_tables_frame (s : CalculatorState) (L : ℚ) (f : String)
    (m : Option FuelMix) (e : List (Pollutant × ℚ)) :
    (calculate_emissions_st s L f m).2 = s ∧
    (compare_with_peqs_st s e).2 = s ∧
    (calculate_emissions_st ((calculate_emissions_st s L f m).2) L f m).1
      = (calculate_emissions_st s L f m).1 ∧
    (compare_with_peqs_st ((compare_with_peqs_st s e).2) e).1
      = (compare_with_peqs_st s e).1 :=
  ⟨rfl, rfl, rfl, rfl⟩

/-- Looking a key up in a factor row built over `pollutant_keys` yields the
underlying function's value. -/
theorem assoc_find_keys_map (g : Pollutant → ℚ) (p : Pollutant) :
    assoc_find (pollutant_keys.map (fun q => (q, g q))) p = some (g p) := by
  cases p <;> rfl

/-- Keyed lookup in `steam_ranges` returns the pair of `range_bounds`. -/
theorem steam_ranges_key_find (lr : LoadRange) :
    steam_ranges.find? (fun r => decide (r.1 = lr)) = some (lr, range_bounds lr) := by
  cases lr <;> rfl

/-- On the initial state, the double factor lookup agrees with the
functional `factor_row`, listed over `pollutant_keys`. -/
theorem lookup_row_agrees (lr : LoadRange) (f : String) :
    lookup_row init_state lr f
      = Except.map (fun g => pollutant_keys.map (fun p => (p, g p)))
          (factor_row f lr) := by
  by_cases h1 : f = "coal"
  · subst h1
    cases lr <;> rfl
  · by_cases h2 : f = "biomass"
    · subst h2
      cases lr <;> rfl
    · have hc : ("coal" : String) ≠ f := fun h => h1 h.symm
      have hb : ("biomass" : String) ≠ f := fun h => h2 h.symm
      simp [lookup_row, init_state, assoc_find, List.find?, hc, hb,
        factor_row, factor_table, h1, h2, Except.map]

/-- The pointwise sum of two rows built over `pollutant_keys`, as the
source's comprehension over `coal_emissions.keys()` computes it. -/
theorem mapM_blend (a b : Pollutant → ℚ) :
    (pollutant_keys.map (fun p => (p, a p))).mapM (fun kv =>
        (assoc_find (pollutant_keys.map (fun q => (q, b q))) kv.1).map
          (fun v => (kv.1, kv.2 + v)))
      = some (pollutant_keys.map (fun p => (p, a p + b p))) := by
  rfl

/-- Cross-validation of the two embeddings: on the state `__init__`
builds, the association-list calculator computes exactly the functional
`calculate_emissions`, with the result dict listed over `pollutant_keys`. -/
theorem calculate_emissions_core_agrees (L : ℚ) (f : String)
    (m : Option FuelMix) :
    calculate_emissions_core init_state L f m =
      Except.map (fun r => (pollutant_keys.map (fun p => (p, r.1 p)), r.2))
        (calculate_emissions L f m) := by
  have hlr : get_load_range_of init_state L = get_load_range L := rfl
  cases m with
  | none =>
      simp only [calculate_emissions_core, calculate_emissions, hlr,
        lookup_row_agrees]
      cases hrow : factor_row f (get_load_range L) with
      | error e => simp [Except.map]
      | ok g =>
          simp [Except.map, init_state, steam_ranges_key_find, List.map_map,
            Function.comp_def]
  | some mix =>
      by_cases hf : f = "mixed"
      · subst hf
        simp only [calculate_emissions_core, calculate_emissions, hlr,
          if_pos rfl, lookup_row_agrees]
        have hcoal : factor_row "coal" (get_load_range L)
            = Except.ok (coal_factors (get_load_range L)) := by
          simp [factor_row, factor_table]
        have hbio : factor_row "biomass" (get_load_range L)
            = Except.ok (biomass_factors (get_load_range L)) := by
          simp [factor_row, factor_table]
        rw [hcoal, hbio]
        simp only [Except.map, List.map_map, Function.comp_def, mapM_blend,
          init_state, steam_ranges_key_find]
        simp [List.map_map, Function.comp_def]
      · simp only [calculate_emissions_core, calculate_emissions, hlr,
          if_neg hf, lookup_row_agrees]
        cases hrow : factor_row f (get_load_range L) with
        | error e => simp [Except.map]
        | ok g =>
            simp [Except.map, init_state, steam_ranges_key_find, List.map_map,
              Function.comp_def]
